import Mathlib

/-!
Verification development for the `mcp-simple-timeserver` core
(`src/mcp_simple_timeserver/core.py` and its callers in
`src/mcp_simple_timeserver/server.py`).

External collaborators (the NTP client, the Nominatim geocoding service, the
timezonefinder index, tzdata-backed `ZoneInfo` data, `strftime` rendering and
the calendar-conversion libraries) are modelled as an oracle record `Env`.
Datetime objects are modelled as an abstract instant handle plus the attached
`tzinfo`; the arithmetic the source itself performs (regex offset matching,
`datetime.timezone` range checking, UTC-offset formatting, list building and
report assembly) is embedded directly.  Python exceptions that the source can
leak are modelled with `Except`.
-/

/-- A Python exception escaping a core function.  The only such exception the
embedding can produce is the `ValueError` raised by `datetime.timezone` for
offsets not strictly within 24 hours. -/
inductive PyErr where
  | valueError
deriving DecidableEq, Repr

/-- A Python `tzinfo` object as used by the core: either a `zoneinfo.ZoneInfo`
(IANA named zone, carrying its key) or a fixed-offset `datetime.timezone`
(carrying its offset in seconds). -/
inductive Tzinfo where
  | named (key : String)
  | fixed (offsetSeconds : Int)
deriving DecidableEq, Repr

/-- A timezone-aware Python `datetime`: an abstract absolute-instant handle
plus the attached `tzinfo`.  Field values (what `strftime` would print, the
zone's offset at that instant, ...) come from the `Env` oracles. -/
structure DT where
  instant : Nat
  tz : Option Tzinfo
deriving DecidableEq, Repr

/-- An opaque (latitude, longitude) pair returned by geocoding.  The core only
passes coordinates between collaborators, so their numeric value is abstract. -/
structure Coord where
  lat : Int
  lon : Int
deriving DecidableEq, Repr

/-- Oracle record for every external collaborator of the core. -/
structure Env where
  /-- `get_ntp_datetime(server)`: abstract instant handle of the returned datetime. -/
  ntpTimeOf : String → Nat
  /-- `get_ntp_datetime(server)`: the `is_ntp_time` flag (`False` = local-clock fallback). -/
  ntpOkOf : String → Bool
  /-- whether `ZoneInfo(key)` constructs (`False` = `ZoneInfoNotFoundError`/`KeyError`). -/
  validZone : String → Bool
  /-- `utcoffset()` in seconds of a named zone at an instant. -/
  zoneOffset : String → Nat → Int
  /-- `dst()` in seconds of a named zone at an instant (`none` = unknown). -/
  zoneDst : String → Nat → Option Int
  /-- `strftime("%Z")` of a named zone at an instant. -/
  zoneAbbrev : String → Nat → String
  /-- `strftime(fmt)` on a datetime, for the date/time formats the core uses. -/
  strf : DT → String → String
  /-- Nominatim lookup: `none` on network error, bad JSON, missing fields, or
  an empty result list; otherwise coordinates and the raw display name
  (already defaulted to the query when the field is absent). -/
  nominatim : String → Option (Coord × String)
  /-- `TimezoneFinder.timezone_at` (exceptions folded into `none`). -/
  coordsTz : Coord → Option String
  /-- `int(dt.timestamp())` for the unix calendar section. -/
  tsInt : DT → Int
  /-- hijridate: `isoformat()` of the converted date. -/
  hijriIso : DT → String
  /-- hijridate: month name. -/
  hijriMonthName : DT → String
  /-- hijridate: day name. -/
  hijriDayName : DT → String
  /-- hijridate: the calendar marker returned by the library. -/
  hijriNotationText : DT → String
  /-- japanera: English-format era date. -/
  japEnglish : DT → String
  /-- japanera: Kanji-format era date. -/
  japKanji : DT → String
  /-- japanera: English era name. -/
  japEraEnglish : DT → String
  /-- japanera: Kanji era name. -/
  japEraKanji : DT → String
  /-- persiantools: Jalali date, `en` locale. -/
  persianEnglish : DT → String
  /-- persiantools: Jalali date, `fa` locale. -/
  persianFarsi : DT → String
  /-- pyluach: Hebrew day of month. -/
  hebDay : DT → Nat
  /-- pyluach: Hebrew month name. -/
  hebMonthName : DT → String
  /-- pyluach: Hebrew year. -/
  hebYear : DT → Int
  /-- pyluach: Hebrew-script date string. -/
  hebDateString : DT → String
  /-- pyluach: English holiday name (`""` = no holiday, like Python falsiness). -/
  hebHolidayEn : DT → String
  /-- pyluach: Hebrew holiday name. -/
  hebHolidayHe : DT → String
  /-- instant of `"now"` endpoints in the distance tool (spec-modelled part). -/
  nowInstant : Int
  /-- instant of an ISO-8601 endpoint string interpreted in a zone (spec-modelled part). -/
  parseDate : String → Option Tzinfo → Int
  /-- rendering of the distance quantity for a `unit` choice (spec-modelled part). -/
  renderQty : String → Int → String

/-! ### Python string primitives

The embedding re-implements the `str` methods the source uses, structurally
over `List Char`, so that every definition kernel-evaluates on concrete
inputs.  Whitespace and case conversion are modelled at ASCII level. -/

/-- Characters stripped by Python `str.strip()` (ASCII model). -/
def isPySpace (c : Char) : Bool :=
  c = ' ' || c = '\t' || c = '\n' || c = '\r'

/-- Python `str.strip()`. -/
def pyStrip (s : String) : String :=
  String.mk (((s.data.dropWhile isPySpace).reverse.dropWhile isPySpace).reverse)

/-- Python `str.lower()` (ASCII model). -/
def pyLower (s : String) : String :=
  String.mk (s.data.map Char.toLower)

/-- Helper for splitting a character list on a single separator character. -/
def splitOnCharAux (sep : Char) : List Char → List Char → List String
  | [], acc => [String.mk acc.reverse]
  | c :: rest, acc =>
      if c = sep then String.mk acc.reverse :: splitOnCharAux sep rest []
      else splitOnCharAux sep rest (c :: acc)

/-- Python `str.split(sep)` for a one-character separator (`"".split(",") = [""]`). -/
def splitOnChar (sep : Char) (s : String) : List String :=
  splitOnCharAux sep s.data []

/-- Python `calendar.split(",")`. -/
def pySplitComma (s : String) : List String := splitOnChar ',' s

/-- Lines of a report, i.e. Python `text.split("\n")`. -/
def linesOf (s : String) : List String := splitOnChar '\n' s

/-- Helper for Python `display_name.split(", ")` (two-character separator). -/
def splitCommaSpace : List Char → List Char → List String
  | [], acc => [String.mk acc.reverse]
  | ',' :: ' ' :: rest, acc => String.mk acc.reverse :: splitCommaSpace rest []
  | c :: rest, acc => splitCommaSpace rest (c :: acc)

/-- Python `"sep".join(parts)`. -/
def pyJoin (sep : String) : List String → String
  | [] => ""
  | [a] => a
  | a :: rest => a ++ sep ++ pyJoin sep rest

/-- Substring test on character lists (Python `pat in s`). -/
def subList (pat : List Char) : List Char → Bool
  | [] => pat.isEmpty
  | c :: rest => pat.isPrefixOf (c :: rest) || subList pat rest

/-- Python `pat in s` for strings. -/
def containsSubstr (s pat : String) : Bool := subList pat.data s.data

/-- Python `p.startswith(pat)`, via character lists. -/
def strStartsWith (s pat : String) : Bool := pat.data.isPrefixOf s.data

/-- Python `f"{n:02d}"` for a non-negative quantity. -/
def pad2 (n : Nat) : String :=
  if n < 10 then "0" ++ toString n else toString n

/-! ### Timezone parsing (`core.py` lines 130-161) -/

/-- Numeric value of a two-digit group. -/
def digitsValN (a b : Char) : Nat := (a.toNat - 48) * 10 + (b.toNat - 48)

/-- The regex `^([+-])(\d{2}):?(\d{2})$` of `parse_timezone_param`: on a match,
the signed offset in seconds (`sign * (hours*3600 + minutes*60)`). -/
def pyMatchOffset (s : String) : Option Int :=
  match s.data with
  | [c0, c1, c2, c3, c4] =>
      if (c0 = '+' || c0 = '-') && c1.isDigit && c2.isDigit && c3.isDigit && c4.isDigit then
        some ((if c0 = '+' then (1 : Int) else -1) *
          (Int.ofNat (digitsValN c1 c2 * 3600 + digitsValN c3 c4 * 60)))
      else none
  | [c0, c1, c2, c3, c4, c5] =>
      if (c0 = '+' || c0 = '-') && c1.isDigit && c2.isDigit && c3 = ':' && c4.isDigit && c5.isDigit then
        some ((if c0 = '+' then (1 : Int) else -1) *
          (Int.ofNat (digitsValN c1 c2 * 3600 + digitsValN c4 c5 * 60)))
      else none
  | _ => none

/-- `parse_timezone_param` (`core.py` 130-161).  `ZoneInfo` construction is the
`validZone` oracle; on a regex match the source builds
`timezone(timedelta(seconds=offset_seconds))`, which raises `ValueError`
unless the offset is strictly between -24h and +24h -- that exception is not
caught anywhere in the source, so it is modelled with `Except.error`. -/
def parse_timezone_param (env : Env) (tz_str : String) : Except PyErr (Option Tzinfo) :=
  let s := pyStrip tz_str
  if s = "" then .ok none
  else if env.validZone s then .ok (some (.named s))
  else
    match pyMatchOffset s with
    | some off =>
        if -86400 < off ∧ off < 86400 then .ok (some (.fixed off)) else .error .valueError
    | none => .ok none

/-! ### Geocoding pipeline (`core.py` 72-127) -/

/-- `geocode_location` (`core.py` 72-112): the HTTP interaction is the
`nominatim` oracle; the display-name compression (`parts[0], parts[-1]` when
the comma-separated name has more than two segments) is source logic. -/
def geocode_location (env : Env) (query : String) : Option (Coord × String) :=
  match env.nominatim query with
  | none => none
  | some (coord, display_raw) =>
      let parts := splitCommaSpace display_raw.data []
      let display_name :=
        if parts.length > 2 then parts.headD "" ++ ", " ++ parts.getLastD ""
        else display_raw
      some (coord, display_name)

/-- Shared lookup of the city/country branches of `resolve_location`
(`core.py` 200-236): geocode, then `coords_to_timezone`, then a guarded
`ZoneInfo` construction; any failure falls through to the branch's warning. -/
def geo_lookup (env : Env) (query : String) : Option (Tzinfo × String) :=
  match geocode_location env query with
  | none => none
  | some (coord, display_name) =>
      match env.coordsTz coord with
      | none => none
      | some zname =>
          if zname ≠ "" then
            if env.validZone zname then some (.named zname, display_name) else none
          else none

/-- Display name used for a timezone resolved through the `tz` parameter:
`str(tz_obj)` (= the key) for `ZoneInfo`, else the stripped input. -/
def tzDisplayName : Tzinfo → String → String
  | .named z, _ => z
  | .fixed _, s => s

/-- Warning of the unparsable-`tz` branch of `resolve_location`. -/
def tzParseWarning (tz : String) : String :=
  "Could not parse timezone \"" ++ tz ++ "\". Use IANA format (e.g., \"Europe/Warsaw\") or UTC offset (e.g., \"+02:00\")."

/-- Warning of the unresolvable-`city` branch of `resolve_location`. -/
def cityWarning (city : String) : String :=
  "Could not resolve location \"" ++ city ++ "\". Try a major city name, provide country name, or use timezone parameter (e.g., \"Europe/Warsaw\")."

/-- Warning of the unresolvable-`country` branch of `resolve_location`. -/
def countryWarning (country : String) : String :=
  "Could not resolve country \"" ++ country ++ "\". Try a city name or use timezone parameter (e.g., \"Europe/Warsaw\")."

/-- `resolve_location` (`core.py` 164-239). -/
def resolve_location (env : Env) (tz country city : String) :
    Except PyErr (Option Tzinfo × String × Option String) :=
  if pyStrip tz ≠ "" then
    match parse_timezone_param env tz with
    | .error e => .error e
    | .ok (some tz_obj) => .ok (some tz_obj, tzDisplayName tz_obj (pyStrip tz), none)
    | .ok none => .ok (none, "", some (tzParseWarning tz))
  else if pyStrip city ≠ "" then
    match geo_lookup env (pyStrip city) with
    | some (tz_obj, display_name) => .ok (some tz_obj, display_name, none)
    | none => .ok (none, "", some (cityWarning city))
  else if pyStrip country ≠ "" then
    match geo_lookup env (pyStrip country) with
    | some (tz_obj, display_name) => .ok (some tz_obj, display_name, none)
    | none => .ok (none, "", some (countryWarning country))
  else .ok (none, "", none)

/-- `get_ntp_datetime` (`core.py` 242-256): both the NTP and the fallback
branch return a timezone-aware datetime with `tzinfo=UTC` (a fixed offset 0). -/
def DEFAULT_NTP_SERVER : String := "pool.ntp.org"

/-- The `(datetime, is_ntp_time)` pair of `get_ntp_datetime`. -/
def get_ntp_datetime (env : Env) (server : String) : DT × Bool :=
  (⟨env.ntpTimeOf server, some (.fixed 0)⟩, env.ntpOkOf server)

/-! ### Calendar formatters (`core.py` 259-349) -/

/-- `format_unix` (`core.py` 261-264). -/
def format_unix (env : Env) (dt : DT) : String :=
  "--- Unix Timestamp ---\n" ++ toString (env.tsInt dt)

/-- `format_isodate` (`core.py` 267-270). -/
def format_isodate (env : Env) (dt : DT) : String :=
  "--- ISO Week Date ---\n" ++ env.strf dt "%G-W%V-%u"

/-- `calendar_hijri` (`core.py` 273-285). -/
def calendar_hijri (env : Env) (dt : DT) : String :=
  "--- Hijri Calendar ---\nDate: " ++ env.hijriIso dt ++ " " ++ env.hijriNotationText dt ++
  "\nMonth: " ++ env.hijriMonthName dt ++ "\nDay: " ++ env.hijriDayName dt

/-- `calendar_japanese` (`core.py` 288-302). -/
def calendar_japanese (env : Env) (dt : DT) : String :=
  "--- Japanese Calendar ---\nEnglish: " ++ env.japEnglish dt ++
  "\nKanji: " ++ env.japKanji dt ++
  "\nEra: " ++ env.japEraEnglish dt ++ " (" ++ env.japEraKanji dt ++ ")"

/-- `calendar_persian` (`core.py` 305-314). -/
def calendar_persian (env : Env) (dt : DT) : String :=
  "--- Persian Calendar ---\nEnglish: " ++ env.persianEnglish dt ++
  "\nFarsi: " ++ env.persianFarsi dt

/-- `calendar_hebrew` (`core.py` 317-338); the holiday line appears only when
the English holiday name is truthy. -/
def calendar_hebrew (env : Env) (dt : DT) : String :=
  let english := toString (env.hebDay dt) ++ " " ++ env.hebMonthName dt ++ " " ++ toString (env.hebYear dt)
  let holiday_line :=
    if env.hebHolidayEn dt ≠ "" then
      "\nHoliday: " ++ env.hebHolidayEn dt ++ " (" ++ env.hebHolidayHe dt ++ ")"
    else ""
  "--- Hebrew Calendar ---\nEnglish: " ++ english ++ "\nHebrew: " ++ env.hebDateString dt ++ holiday_line

/-- `CALENDAR_FORMATTERS` (`core.py` 342-349). -/
def CALENDAR_FORMATTERS : List (String × (Env → DT → String)) :=
  [("unix", format_unix), ("isodate", format_isodate), ("hijri", calendar_hijri),
   ("japanese", calendar_japanese), ("persian", calendar_persian), ("hebrew", calendar_hebrew)]

/-- Dictionary lookup `CALENDAR_FORMATTERS[name]` / `name in CALENDAR_FORMATTERS`. -/
def calFormatter (name : String) : Option (Env → DT → String) :=
  (CALENDAR_FORMATTERS.find? (fun p => p.1 == name)).map (fun p => p.2)

/-! ### Display helpers (`core.py` 368-411) -/

/-- Python's `tzinfo.tzname` as seen through `strftime("%Z")`: `""` for a
naive datetime, the oracle abbreviation for a named zone, and
`UTC±HH:MM` (plain `UTC` at offset zero) for fixed-offset timezones. -/
def py_tzname (env : Env) (dt : DT) : String :=
  match dt.tz with
  | none => ""
  | some (.named z) => env.zoneAbbrev z dt.instant
  | some (.fixed n) =>
      if n = 0 then "UTC"
      else "UTC" ++ (if n ≥ 0 then "+" else "-") ++
        pad2 (n.natAbs / 3600) ++ ":" ++ pad2 ((n.natAbs % 3600) / 60)

/-- `dt.utcoffset()` in seconds. -/
def py_utcoffset (env : Env) (dt : DT) : Option Int :=
  match dt.tz with
  | none => none
  | some (.named z) => some (env.zoneOffset z dt.instant)
  | some (.fixed n) => some n

/-- `dt.dst()` in seconds (`None` for fixed-offset timezones). -/
def py_dst (env : Env) (dt : DT) : Option Int :=
  match dt.tz with
  | none => none
  | some (.named z) => env.zoneDst z dt.instant
  | some (.fixed _) => none

/-- Python `str.lstrip("+-")`. -/
def lstripPM (s : String) : String :=
  String.mk (s.data.dropWhile (fun c => c = '+' || c = '-'))

/-- Python `str.isdigit()` (ASCII model; `False` on the empty string). -/
def pyIsdigit (s : String) : Bool := !s.data.isEmpty && s.data.all Char.isDigit

/-- `_get_timezone_abbrev` (`core.py` 387-398). -/
def get_timezone_abbrev (env : Env) (dt : DT) : String :=
  let ab := py_tzname env dt
  if ab ≠ "" && !pyIsdigit (lstripPM ab) then ab else ""

/-- Offset rendering of `_format_utc_offset` for a known total-seconds value. -/
def format_offset_str (total : Int) : String :=
  (if total ≥ 0 then "+" else "-") ++
  pad2 (total.natAbs / 3600) ++ ":" ++ pad2 ((total.natAbs % 3600) / 60)

/-- `_format_utc_offset` (`core.py` 368-384). -/
def format_utc_offset (env : Env) (dt : DT) : String :=
  match py_utcoffset env dt with
  | none => "+00:00"
  | some total => format_offset_str total

/-- `_is_dst_active` (`core.py` 401-411). -/
def is_dst_active (env : Env) (dt : DT) : Option Bool :=
  match py_dst env dt with
  | none => none
  | some d => some (d > 0)

/-! ### Report builder -- `current_time_result` (`core.py` 414-547) -/

/-- `utc_time_result` (`core.py` 354-365). -/
def utc_time_result (env : Env) (server : String) : String :=
  let p := get_ntp_datetime env server
  let formatted_time := env.strf p.1 "%Y-%m-%d %H:%M:%S"
  let day_of_week := env.strf p.1 "%A"
  let fallback_notice :=
    if p.2 then "" else "\n(Note: NTP unavailable, using local server time)"
  "Current UTC Time from " ++ server ++ ": " ++ formatted_time ++ "\nDay: " ++ day_of_week ++ fallback_notice

/-- `has_location` (`core.py` 437). -/
def hasLocation (tz country city : String) : Bool :=
  (pyStrip tz != "") || (pyStrip country != "") || (pyStrip city != "")

/-- The UTC datetime of a `current_time_result` call. -/
def utcDT (env : Env) : DT := (get_ntp_datetime env DEFAULT_NTP_SERVER).1

/-- The display datetime (`core.py` 439-445): local time when a timezone was
resolved (`astimezone` keeps the instant and swaps the `tzinfo`), else UTC. -/
def displayDT (env : Env) (tzObj : Option Tzinfo) : DT :=
  match tzObj with
  | some t => ⟨env.ntpTimeOf DEFAULT_NTP_SERVER, some t⟩
  | none => utcDT env

/-- The unknown-calendar warning line (`core.py` 518). -/
def unknownCalWarn (cal_name : String) : String :=
  "(Note: Unknown calendar format ignored: " ++ cal_name ++ ")"

/-- `(result_lines, warnings)` before calendar processing (`core.py` 454-503):
the location-success header, or the failure warnings plus the UTC fallback
view, or the plain UTC view. -/
def ctr_base (env : Env) (r : Option Tzinfo × String × Option String)
    (has_location : Bool) (display_time : DT) : List String × List String :=
  if has_location then
    match r.1 with
    | some t =>
        let formatted_display_time := env.strf display_time "%Y-%m-%d %H:%M:%S"
        let day_of_week := env.strf display_time "%A"
        let base := ["Local Time: " ++ formatted_display_time, "Day: " ++ day_of_week,
                     "Location: " ++ r.2.1]
        let ab := get_timezone_abbrev env display_time
        let tzLine :=
          if ab ≠ "" then
            match t with
            | .named z => "Timezone: " ++ z ++ " (" ++ ab ++ ")"
            | .fixed _ => "Timezone: " ++ ab
          else
            match t with
            | .named z => "Timezone: " ++ z
            | .fixed _ => "Timezone: " ++ r.2.1
        let offLine := "UTC Offset: " ++ format_utc_offset env display_time
        let dstLines :=
          match t with
          | .named _ =>
              (match is_dst_active env display_time with
               | some b => ["DST Active: " ++ (if b then "Yes" else "No")]
               | none => [])
          | .fixed _ => []
        (base ++ [tzLine, offLine] ++ dstLines, [])
    | none =>
        let w :=
          match r.2.2 with
          | some s =>
              if s ≠ "" then
                ["Note: " ++ s,
                 "Tip: Try a major city name, provide country name, or use timezone parameter (e.g., \"Europe/Warsaw\")."]
              else []
          | none => []
        (["UTC Time: " ++ env.strf (utcDT env) "%Y-%m-%d %H:%M:%S",
          "Day: " ++ env.strf display_time "%A"], w)
  else
    (["UTC Time: " ++ env.strf (utcDT env) "%Y-%m-%d %H:%M:%S",
      "Day: " ++ env.strf display_time "%A"], [])

/-- The body of the calendar loop (`core.py` 512-518), threading
`(calendar_sections, warnings)`. -/
def calFoldStep (env : Env) (display_time : DT) (acc : List String × List String)
    (cal_name : String) : List String × List String :=
  if cal_name = "" then acc
  else
    match calFormatter cal_name with
    | some f => (acc.1 ++ [f env display_time], acc.2)
    | none => (acc.1, acc.2 ++ [unknownCalWarn cal_name])

/-- Calendar processing (`core.py` 505-518): when the calendar argument is
non-blank, append the Gregorian date line and run the loop over the split,
stripped, lowercased names.  Returns `(result_lines, sections, warnings)`. -/
def calendar_pass (env : Env) (display_time : DT) (calendar : String)
    (rl0 w0 : List String) : List String × List String × List String :=
  if pyStrip calendar ≠ "" then
    let requested := (pySplitComma calendar).map (fun c => pyLower (pyStrip c))
    let folded := requested.foldl (calFoldStep env display_time) ([], w0)
    (rl0 ++ ["Date: " ++ env.strf display_time "%Y-%m-%d" ++ " (Gregorian)"],
     folded.1, folded.2)
  else (rl0, [], w0)

/-- `(result_lines, calendar_sections, warnings)` of a call, for a resolved
location triple `r`. -/
def ctr_state (env : Env) (calendar tz country city : String)
    (r : Option Tzinfo × String × Option String) :
    List String × List String × List String :=
  let display_time := displayDT env r.1
  let p := ctr_base env r (hasLocation tz country city) display_time
  calendar_pass env display_time calendar p.1 p.2

/-- Assembly block 1 (`core.py` 524-527): all warnings, at the top, only when
location resolution was requested and failed. -/
def ctrWarnBlock (warnings : List String) (has_location : Bool)
    (tzObj : Option Tzinfo) : List String :=
  if !warnings.isEmpty && has_location && tzObj.isNone then
    [pyJoin "\n" warnings, ""]
  else []

/-- Assembly block 3 (`core.py` 531-532): the calendar sections. -/
def ctrSectionsBlock (calendar_sections : List String) : List String :=
  if !calendar_sections.isEmpty then ["\n" ++ pyJoin "\n\n" calendar_sections] else []

/-- Assembly block 4 (`core.py` 534-537): warnings whose text contains
`"Unknown calendar"`, repeated at the end. -/
def ctrCalWarnBlock (warnings : List String) : List String :=
  let calendar_warnings := warnings.filter (fun w => containsSubstr w "Unknown calendar")
  if !calendar_warnings.isEmpty then ["\n" ++ pyJoin "\n" calendar_warnings] else []

/-- Assembly block 5 (`core.py` 539-541): the trailing UTC reference, only
when a location resolved. -/
def ctrUtcRefBlock (has_location : Bool) (tzObj : Option Tzinfo)
    (formatted_utc_time : String) : List String :=
  if has_location && tzObj.isSome then ["\nUTC Time: " ++ formatted_utc_time] else []

/-- Assembly block 6 (`core.py` 543-545): the NTP fallback notice. -/
def ctrNtpBlock (is_ntp : Bool) : List String :=
  if is_ntp then [] else ["(Note: NTP unavailable, using local server time)"]

/-- `current_time_result` up to the final `"\n".join` (`core.py` 414-547),
i.e. the `result_parts` list; the `ValueError` that `resolve_location` can
leak propagates. -/
def current_time_parts (env : Env) (calendar tz country city : String) :
    Except PyErr (List String) :=
  match resolve_location env tz country city with
  | .error e => .error e
  | .ok r =>
      let st := ctr_state env calendar tz country city r
      let has_location := hasLocation tz country city
      let formatted_utc_time := env.strf (utcDT env) "%Y-%m-%d %H:%M:%S"
      .ok (ctrWarnBlock st.2.2 has_location r.1
           ++ [pyJoin "\n" st.1]
           ++ ctrSectionsBlock st.2.1
           ++ ctrCalWarnBlock st.2.2
           ++ ctrUtcRefBlock has_location r.1 formatted_utc_time
           ++ ctrNtpBlock (env.ntpOkOf DEFAULT_NTP_SERVER))

/-- `current_time_result` (`core.py` 414-547). -/
def current_time_result (env : Env) (calendar tz country city : String) :
    Except PyErr String :=
  (current_time_parts env calendar tz country city).map (pyJoin "\n")

/-! ### Report builder -- `time_distance_result`

Modelled from the spec: `server.py` imports `time_distance_result` from
`.core` and `calculate_time_distance` delegates to it, but the version of
`core.py` under `src/` ends before that function is defined -- only its caller
and the CLI tests exercise it.  The definition below follows spec section 4.5:
endpoints are the literal token `"now"` (resolved through the Time Source) or
an ISO-8601 string interpreted in the resolved location's zone; exactly equal
resolved instants are a reported usage error; otherwise a best-effort report
headed by the rendered distance is produced. -/

/-- Modelled from the spec: endpoint resolution of the distance tool
(spec section 4.5, first bullet). -/
def resolveEndpoint (env : Env) (tz_obj : Option Tzinfo) (s : String) : Int :=
  if s = "now" then env.nowInstant else env.parseDate s tz_obj

/-- Modelled from the spec: the explicit usage-error text for identical
endpoints (spec sections 4.5 and 7). -/
def sameEndpointsError : String :=
  "Error: from_date and to_date are the same value for both endpoints."

/-- Modelled from the spec: `time_distance_result` (spec section 4.5).  The
report body (unit rendering, direction, parsed endpoints, UTC references) is
abstracted into the `renderQty` oracle behind the fixed `"Distance: "` head. -/
def time_distance_result (env : Env) (from_date to_date unit tz country city : String) :
    Except PyErr String :=
  match resolve_location env tz country city with
  | .error e => .error e
  | .ok r =>
      let a := resolveEndpoint env r.1 from_date
      let b := resolveEndpoint env r.1 to_date
      if a = b then .ok sameEndpointsError
      else
        .ok ("Distance: " ++ env.renderQty unit (b - a) ++
             "\nDirection: " ++ (if a < b then "future" else "past"))

/-! ### Concrete oracle instances for witnesses and counterexamples -/

/-- An `Env` in which every network collaborator fails, every `ZoneInfo`
lookup misses, NTP succeeds, and `strftime` renders `"T"`. -/
def envTest : Env where
  ntpTimeOf := fun _ => 0
  ntpOkOf := fun _ => true
  validZone := fun _ => false
  zoneOffset := fun _ _ => 0
  zoneDst := fun _ _ => none
  zoneAbbrev := fun _ _ => ""
  strf := fun _ _ => "T"
  nominatim := fun _ => none
  coordsTz := fun _ => none
  tsInt := fun _ => 0
  hijriIso := fun _ => "H"
  hijriMonthName := fun _ => "H"
  hijriDayName := fun _ => "H"
  hijriNotationText := fun _ => "H"
  japEnglish := fun _ => "J"
  japKanji := fun _ => "J"
  japEraEnglish := fun _ => "J"
  japEraKanji := fun _ => "J"
  persianEnglish := fun _ => "P"
  persianFarsi := fun _ => "P"
  hebDay := fun _ => 1
  hebMonthName := fun _ => "B"
  hebYear := fun _ => 5785
  hebDateString := fun _ => "B"
  hebHolidayEn := fun _ => ""
  hebHolidayHe := fun _ => ""
  nowInstant := 0
  parseDate := fun _ _ => 0
  renderQty := fun _ _ => "Q"

/-- `envTest` with the NTP query failing (local-clock fallback). -/
def envNtpFail : Env := { envTest with ntpOkOf := fun _ => false }

/-- Two-character all-digit check used to state the `±HH:MM` display shape. -/
def twoDigitsB (s : String) : Bool :=
  match s.data with
  | [a, b] => a.isDigit && b.isDigit
  | _ => false

/-- Shape checker for a displayed UTC offset: a sign, two digits, a colon,
two digits. -/
def isOffsetShape (s : String) : Bool :=
  match s.data with
  | [c0, d1, d2, c, d3, d4] =>
      (c0 = '+' || c0 = '-') && d1.isDigit && d2.isDigit && c = ':' && d3.isDigit && d4.isDigit
  | _ => false

/-- The processed calendar-name list (`core.py` 507-511): a non-blank
calendar argument split on commas, each segment stripped and lowercased;
empty when the calendar argument is blank. -/
def calRequested (calendar : String) : List String :=
  if pyStrip calendar ≠ "" then (pySplitComma calendar).map (fun c => pyLower (pyStrip c))
  else []

/-! ### Helper lemmas -/

theorem strData_append (a b : String) : (a ++ b).data = a.data ++ b.data := by
  cases a; cases b; rfl

theorem strAppendAssoc (a b c : String) : a ++ b ++ c = a ++ (b ++ c) := by
  cases a; cases b; cases c
  show String.mk _ = String.mk _
  simp [String.append, List.append_assoc]

theorem pyJoin_append_last (sep x : String) :
    ∀ l : List String, l ≠ [] → pyJoin sep (l ++ [x]) = pyJoin sep l ++ sep ++ x
  | [], h => absurd rfl h
  | [a], _ => rfl
  | a :: b :: rest, _ => by
      have ih := pyJoin_append_last sep x (b :: rest) (by simp)
      show a ++ sep ++ pyJoin sep ((b :: rest) ++ [x]) = a ++ sep ++ pyJoin sep (b :: rest) ++ sep ++ x
      rw [ih, strAppendAssoc (a ++ sep) _ _, strAppendAssoc (a ++ sep) _ _]

theorem subList_append_left (pat l l' : List Char) (h : subList pat l = true) :
    subList pat (l ++ l') = true := by
  induction l with
  | nil =>
      simp [subList] at h
      subst h
      cases l' with
      | nil => rfl
      | cons c rest => simp [subList, List.isPrefixOf]
  | cons c rest ih =>
      simp only [subList, Bool.or_eq_true] at h ⊢
      rcases h with h | h
      · left
        have hp : pat <+: c :: rest := by
          exact (List.isPrefixOf_iff_prefix).mp h
        have : pat <+: (c :: rest) ++ l' := hp.trans (List.prefix_append _ _)
        exact (List.isPrefixOf_iff_prefix).mpr this
      · right; exact ih h

theorem hasLocation_iff {tz country city : String} :
    hasLocation tz country city = true ↔
      (pyStrip tz ≠ "" ∨ pyStrip country ≠ "" ∨ pyStrip city ≠ "") := by
  simp [hasLocation, or_assoc]

theorem twoDigitsB_pad2 : ∀ n : Nat, n < 100 → twoDigitsB (pad2 n) = true := by
  decide

theorem twoDigitsB_shape {s : String} (h : twoDigitsB s = true) :
    ∃ a b, s.data = [a, b] ∧ a.isDigit = true ∧ b.isDigit = true := by
  unfold twoDigitsB at h
  rcases hd : s.data with _ | ⟨a, _ | ⟨b, _ | ⟨c, l⟩⟩⟩ <;> rw [hd] at h
  · simp at h
  · simp at h
  · simp only [Bool.and_eq_true] at h
    exact ⟨a, b, by simp [hd], h.1, h.2⟩
  · simp at h

theorem foldl_calFoldStep (env : Env) (dt : DT) :
    ∀ (req s w : List String),
      req.foldl (calFoldStep env dt) (s, w) =
        (s ++ req.filterMap (fun c =>
            if c = "" then none else (calFormatter c).map (fun f => f env dt)),
         w ++ req.filterMap (fun c =>
            if c = "" then none else
              match calFormatter c with
              | some _ => none
              | none => some (unknownCalWarn c)))
  | [], s, w => by simp
  | c :: rest, s, w => by
      by_cases hc : c = ""
      · have hstep : calFoldStep env dt (s, w) c = (s, w) := by
          simp [calFoldStep, hc]
        rw [List.foldl_cons, hstep, foldl_calFoldStep env dt rest s w]
        simp [List.filterMap_cons, hc]
      · cases hf : calFormatter c with
        | some f =>
            have hstep : calFoldStep env dt (s, w) c = (s ++ [f env dt], w) := by
              simp [calFoldStep, hc, hf]
            rw [List.foldl_cons, hstep, foldl_calFoldStep env dt rest (s ++ [f env dt]) w]
            simp [List.filterMap_cons, hc, hf, List.append_assoc]
        | none =>
            have hstep : calFoldStep env dt (s, w) c = (s, w ++ [unknownCalWarn c]) := by
              simp [calFoldStep, hc, hf]
            rw [List.foldl_cons, hstep, foldl_calFoldStep env dt rest s (w ++ [unknownCalWarn c])]
            simp [List.filterMap_cons, hc, hf, List.append_assoc]

/-! ### Claims -/

/-- Claim C1.  The claim asserts that `current_time_result` is total: every
well-formed input, explicitly including syntactically offset-like timezone
strings such as `"+25:00"`, yields a text result with no escaping exception.
The code violates this: for `tz="+25:00"` the offset regex matches, and
`timezone(timedelta(seconds=90000))` raises an uncaught `ValueError` that
escapes `parse_timezone_param`, `resolve_location` and `current_time_result`
-- contradicting `parse_timezone_param`'s own docstring ("`None` if invalid")
and the tool docstring ("Invalid locations fall back to UTC"), so the code,
not the claim, is wrong. -/
theorem c1_totality_valueerror_escape (env : Env) (calendar country city : String)
    (h : env.validZone "+25:00" = false) :
    parse_timezone_param env "+25:00" = .error .valueError ∧
    current_time_result env calendar "+25:00" country city = .error .valueError := by
  have hp : parse_timezone_param env "+25:00" = .error .valueError := by
    have hshape : parse_timezone_param env "+25:00" =
        if env.validZone "+25:00" then .ok (some (.named "+25:00")) else .error .valueError := by
      rfl
    rw [hshape, h]
    simp
  refine ⟨hp, ?_⟩
  have hr : resolve_location env "+25:00" country city = .error .valueError := by
    unfold resolve_location
    rw [if_pos (show pyStrip "+25:00" ≠ "" by decide), hp]
  unfold current_time_result current_time_parts
  rw [hr]
  rfl

theorem c1_witness :
    envTest.validZone "+25:00" = false ∧
    (parse_timezone_param envTest "+25:00" = .error .valueError ∧
     current_time_result envTest "" "+25:00" "" "" = .error .valueError) :=
  ⟨rfl, c1_totality_valueerror_escape envTest "" "" "" rfl⟩

/-- Claim C3.  Priority law of `resolve_location`: a non-blank `tz` makes the
result depend only on `tz`; otherwise a non-blank `city` makes it depend only
on `city`; otherwise only `country` matters.  Stated equationally: every call
equals the call with all lower-priority parameters blanked. -/
theorem c3_priority_first_nonempty_wins (env : Env) (tz country city : String) :
    resolve_location env tz country city =
      if pyStrip tz ≠ "" then resolve_location env tz "" ""
      else if pyStrip city ≠ "" then resolve_location env "" "" city
      else resolve_location env "" country "" := by
  by_cases h1 : pyStrip tz = ""
  · by_cases h2 : pyStrip city = ""
    · simp [resolve_location, h1, h2, show pyStrip "" = "" from rfl]
    · simp [resolve_location, h1, h2, show pyStrip "" = "" from rfl]
  · simp [resolve_location, h1]

/-- Claim C7.  For every `.ok` result of `resolve_location`, the warning is
present iff some location parameter was non-blank and resolution failed
(no timezone object); with all parameters blank the result is exactly
`(none, "", none)`. -/
theorem c7_warning_iff_attempted_and_failed (env : Env) (tz country city : String)
    (r : Option Tzinfo × String × Option String)
    (h : resolve_location env tz country city = .ok r) :
    (r.2.2 ≠ none ↔ (hasLocation tz country city = true ∧ r.1 = none)) ∧
    (hasLocation tz country city = false → r = (none, "", none)) := by
  unfold resolve_location at h
  by_cases h1 : pyStrip tz = ""
  · by_cases h2 : pyStrip city = ""
    · by_cases h3 : pyStrip country = ""
      · rw [if_neg (by simpa using h1), if_neg (by simpa using h2),
            if_neg (by simpa using h3)] at h
        have hr : r = (none, "", none) := by
          injection h with h'; exact h'.symm
        subst hr
        have hloc : hasLocation tz country city = false := by
          simp [hasLocation, h1, h2, h3]
        simp [hloc]
      · rw [if_neg (by simpa using h1), if_neg (by simpa using h2),
            if_pos (by simpa using h3)] at h
        have hloc : hasLocation tz country city = true := by
          rw [hasLocation_iff]; exact Or.inr (Or.inl h3)
        cases hg : geo_lookup env (pyStrip country) with
        | some p =>
            rw [hg] at h
            dsimp only at h
            have hr : r = (some p.1, p.2, none) := by
              injection h with h'; exact h'.symm
            subst hr
            simp [hloc]
        | none =>
            rw [hg] at h
            dsimp only at h
            have hr : r = (none, "", some (countryWarning country)) := by
              injection h with h'; exact h'.symm
            subst hr
            simp [hloc]
    · rw [if_neg (by simpa using h1), if_pos (by simpa using h2)] at h
      have hloc : hasLocation tz country city = true := by
        rw [hasLocation_iff]; exact Or.inr (Or.inr h2)
      cases hg : geo_lookup env (pyStrip city) with
      | some p =>
          rw [hg] at h
          dsimp only at h
          have hr : r = (some p.1, p.2, none) := by
            injection h with h'; exact h'.symm
          subst hr
          simp [hloc]
      | none =>
          rw [hg] at h
          dsimp only at h
          have hr : r = (none, "", some (cityWarning city)) := by
            injection h with h'; exact h'.symm
          subst hr
          simp [hloc]
  · rw [if_pos (by simpa using h1)] at h
    have hloc : hasLocation tz country city = true := by
      rw [hasLocation_iff]; exact Or.inl h1
    cases hp : parse_timezone_param env tz with
    | error e => rw [hp] at h; exact absurd h (by simp)
    | ok o =>
        rw [hp] at h
        cases o with
        | some t =>
            have hr : r = (some t, tzDisplayName t (pyStrip tz), none) := by
              injection h with h'; exact h'.symm
            subst hr
            simp [hloc]
        | none =>
            have hr : r = (none, "", some (tzParseWarning tz)) := by
              injection h with h'; exact h'.symm
            subst hr
            simp [hloc]

theorem c7_witness :
    resolve_location envTest "" "" "" = .ok (none, "", none) ∧
    ((((none, "", none) : Option Tzinfo × String × Option String).2.2 ≠ none ↔
       (hasLocation "" "" "" = true ∧
        ((none, "", none) : Option Tzinfo × String × Option String).1 = none)) ∧
     (hasLocation "" "" "" = false →
       ((none, "", none) : Option Tzinfo × String × Option String) = (none, "", none))) :=
  ⟨rfl, c7_warning_iff_attempted_and_failed envTest "" "" "" (none, "", none) rfl⟩

/-- Claim C9.  When the `tz` parameter parses successfully, the resolved
display name is `str(tz_obj)` -- the IANA key, which equals the stripped
input -- for a named zone, and the stripped original input for a fixed-offset
zone, with no warning. -/
theorem c9_tz_success_display_name (env : Env) (tz country city : String) (t : Tzinfo)
    (h : parse_timezone_param env tz = .ok (some t)) :
    resolve_location env tz country city = .ok (some t, tzDisplayName t (pyStrip tz), none) ∧
    (∀ z, t = Tzinfo.named z → z = pyStrip tz) := by
  have h1 : pyStrip tz ≠ "" := by
    intro he
    simp only [parse_timezone_param, he] at h
    exact absurd h (by simp)
  constructor
  · unfold resolve_location
    rw [if_pos h1, h]
  · intro z hz
    subst hz
    simp only [parse_timezone_param, if_neg h1] at h
    cases hv : env.validZone (pyStrip tz) with
    | true =>
        simp [hv] at h
        exact h.symm
    | false =>
        simp [hv] at h
        cases hm : pyMatchOffset (pyStrip tz) with
        | some off =>
            rw [hm] at h
            dsimp only at h
            by_cases hb : -86400 < off ∧ off < 86400
            · rw [if_pos hb] at h
              simp at h
            · rw [if_neg hb] at h
              exact absurd h (by simp)
        | none =>
            rw [hm] at h
            exact absurd h (by simp)

theorem c9_witness :
    resolve_location envTest "+05:00" "x" "y" =
      .ok (some (.fixed 18000), tzDisplayName (.fixed 18000) (pyStrip "+05:00"), none) ∧
    (∀ z, Tzinfo.fixed 18000 = Tzinfo.named z → z = pyStrip "+05:00") :=
  c9_tz_success_display_name envTest "+05:00" "x" "y" (.fixed 18000) rfl

/-- Characterization of the offset regex `^([+-])(\d{2}):?(\d{2})$`: a match
requires a sign character, two digits, an optional colon, and two digits. -/
theorem pyMatchOffset_isSome_iff (t : String) :
    (pyMatchOffset t).isSome = true ↔
      ∃ sgn d1 d2 d3 d4 : Char,
        (sgn = '+' ∨ sgn = '-') ∧ d1.isDigit = true ∧ d2.isDigit = true ∧
        d3.isDigit = true ∧ d4.isDigit = true ∧
        (t.data = [sgn, d1, d2, d3, d4] ∨ t.data = [sgn, d1, d2, ':', d3, d4]) := by
  unfold pyMatchOffset
  rcases hd : t.data with _ | ⟨c0, _ | ⟨c1, _ | ⟨c2, _ | ⟨c3, _ | ⟨c4, _ | ⟨c5, _ | ⟨c6, rest⟩⟩⟩⟩⟩⟩⟩
  · simp
  · simp
  · simp
  · simp
  · simp
  · -- five characters: the colon-free form
    dsimp only
    constructor
    · intro hs
      by_cases hc : ((c0 = '+' || c0 = '-') && c1.isDigit && c2.isDigit && c3.isDigit && c4.isDigit) = true
      · simp only [Bool.and_eq_true, Bool.or_eq_true, decide_eq_true_eq] at hc
        exact ⟨c0, c1, c2, c3, c4, hc.1.1.1.1, hc.1.1.1.2, hc.1.1.2, hc.1.2, hc.2, Or.inl rfl⟩
      · rw [if_neg hc] at hs
        simp at hs
    · rintro ⟨sgn, d1, d2, d3, d4, hsgn, h1, h2, h3, h4, (heq | heq)⟩
      · injection heq with e0 heq; injection heq with e1 heq; injection heq with e2 heq
        injection heq with e3 heq; injection heq with e4 heq
        subst e0; subst e1; subst e2; subst e3; subst e4
        rw [if_pos (by simp [h1, h2, h3, h4]; rcases hsgn with hh | hh <;> simp [hh])]
        rfl
      · cases heq
  · -- six characters: the colon form
    dsimp only
    constructor
    · intro hs
      by_cases hc : ((c0 = '+' || c0 = '-') && c1.isDigit && c2.isDigit && c3 = ':' && c4.isDigit && c5.isDigit) = true
      · simp only [Bool.and_eq_true, Bool.or_eq_true, decide_eq_true_eq] at hc
        refine ⟨c0, c1, c2, c4, c5, hc.1.1.1.1.1, hc.1.1.1.1.2, hc.1.1.1.2, hc.1.2, hc.2, Or.inr ?_⟩
        rw [hc.1.1.2]
      · rw [if_neg hc] at hs
        simp at hs
    · rintro ⟨sgn, d1, d2, d3, d4, hsgn, h1, h2, h3, h4, (heq | heq)⟩
      · cases heq
      · injection heq with e0 heq; injection heq with e1 heq; injection heq with e2 heq
        injection heq with e3 heq; injection heq with e4 heq; injection heq with e5 heq
        subst e0; subst e1; subst e2; subst e3; subst e4; subst e5
        rw [if_pos (by simp [h1, h2, h3, h4]; rcases hsgn with hh | hh <;> simp [hh])]
        rfl
  · simp

/-- Claim C6 (amended).  The claim said the offset pattern has an *optional*
sign so that unsigned forms like `"0530"` match; in the source the sign is
*required* (`^([+-])...`).  Amended: after the IANA attempt fails, the
pattern -- a required sign, two digits, an optional colon, two digits -- is
tried; if it does not match either, `resolve_location` returns no timezone
and a warning naming the original string. -/
theorem c6_offset_pattern_sign_required (env : Env) (s country city : String)
    (h1 : pyStrip s ≠ "") (h2 : env.validZone (pyStrip s) = false) :
    ((pyMatchOffset (pyStrip s)).isSome = true ↔
      ∃ sgn d1 d2 d3 d4 : Char,
        (sgn = '+' ∨ sgn = '-') ∧ d1.isDigit = true ∧ d2.isDigit = true ∧
        d3.isDigit = true ∧ d4.isDigit = true ∧
        ((pyStrip s).data = [sgn, d1, d2, d3, d4] ∨
         (pyStrip s).data = [sgn, d1, d2, ':', d3, d4])) ∧
    (pyMatchOffset (pyStrip s) = none →
      resolve_location env s country city = .ok (none, "", some (tzParseWarning s)) ∧
      ∃ p q, tzParseWarning s = p ++ s ++ q) := by
  refine ⟨pyMatchOffset_isSome_iff (pyStrip s), fun hm => ⟨?_, ?_⟩⟩
  · have hp : parse_timezone_param env s = .ok none := by
      simp only [parse_timezone_param, if_neg h1, h2]
      simp [hm]
    unfold resolve_location
    rw [if_pos h1, hp]
  · exact ⟨"Could not parse timezone \"",
      "\". Use IANA format (e.g., \"Europe/Warsaw\") or UTC offset (e.g., \"+02:00\").", rfl⟩

theorem c6_witness :
    resolve_location envTest "zz+" "" "" = .ok (none, "", some (tzParseWarning "zz+")) ∧
    ∃ p q, tzParseWarning "zz+" = p ++ "zz+" ++ q :=
  (c6_offset_pattern_sign_required envTest "zz+" "" "" (by decide) rfl).2 rfl

/-- Counterexample to claim C6 as stated: the claim says the unsigned form
`"0530"` matches the numeric UTC-offset pattern, but the regex requires a
sign, so `"0530"` fails both interpretation attempts and `resolve_location`
reports the could-not-parse warning instead of a fixed-offset zone. -/
theorem c6_counterexample :
    pyMatchOffset "0530" = none ∧
    parse_timezone_param envTest "0530" = .ok none ∧
    resolve_location envTest "0530" "" "" = .ok (none, "", some (tzParseWarning "0530")) :=
  ⟨rfl, rfl, rfl⟩

/-- A best-effort distance report never equals the identical-endpoints error
string: its first character is `D`, the error's is `E`. -/
theorem distanceReport_ne_error (q b : String) :
    "Distance: " ++ q ++ b ≠ sameEndpointsError := by
  intro hx
  have hh : ("Distance: " ++ q ++ b).data.headD ' ' = sameEndpointsError.data.headD ' ' := by
    rw [hx]
  have h1 : ("Distance: " ++ q ++ b).data.headD ' ' = 'D' := by
    cases q; cases b; rfl
  have h2 : sameEndpointsError.data.headD ' ' = 'E' := rfl
  rw [h1, h2] at hh
  cases hh

/-- A best-effort distance report does not start with `"Error"`. -/
theorem distanceReport_not_error_head (q b : String) :
    strStartsWith ("Distance: " ++ q ++ b) "Error" = false := by
  cases q; cases b; rfl

/-- Claim C2.  (Spec-modelled: the source of `time_distance_result` is not
under src/.)  Given a resolved location, the distance tool always returns a
text result; the result is the identical-endpoints usage-error text exactly
when the two resolved instants are equal, and an output flagged as an error
(`"Error"` head) occurs in exactly that case -- so equal endpoints are the
only input class reported as invalid. -/
theorem c2_equal_endpoints_only_usage_error (env : Env)
    (from_date to_date unit tz country city : String)
    (r : Option Tzinfo × String × Option String)
    (h : resolve_location env tz country city = .ok r) :
    ∃ out, time_distance_result env from_date to_date unit tz country city = .ok out ∧
      (out = sameEndpointsError ↔
        resolveEndpoint env r.1 from_date = resolveEndpoint env r.1 to_date) ∧
      (strStartsWith out "Error" = true ↔
        resolveEndpoint env r.1 from_date = resolveEndpoint env r.1 to_date) := by
  unfold time_distance_result
  rw [h]
  dsimp only
  by_cases he : resolveEndpoint env r.1 from_date = resolveEndpoint env r.1 to_date
  · rw [if_pos he]
    exact ⟨sameEndpointsError, rfl, ⟨fun _ => he, fun _ => rfl⟩,
      ⟨fun _ => he, fun _ => by decide⟩⟩
  · rw [if_neg he]
    refine ⟨_, rfl, ⟨fun hcontra => ?_, fun hcontra => absurd hcontra he⟩,
      ⟨fun hcontra => ?_, fun hcontra => absurd hcontra he⟩⟩
    · rw [strAppendAssoc] at hcontra
      exact absurd hcontra (distanceReport_ne_error _ _)
    · rw [strAppendAssoc] at hcontra
      rw [distanceReport_not_error_head] at hcontra
      cases hcontra

theorem c2_witness :
    ∃ out, time_distance_result envTest "2025-01-01" "2025-01-01" "auto" "" "" "" = .ok out ∧
      (out = sameEndpointsError ↔
        resolveEndpoint envTest none "2025-01-01" = resolveEndpoint envTest none "2025-01-01") ∧
      (strStartsWith out "Error" = true ↔
        resolveEndpoint envTest none "2025-01-01" = resolveEndpoint envTest none "2025-01-01") :=
  c2_equal_endpoints_only_usage_error envTest "2025-01-01" "2025-01-01" "auto" "" "" ""
    (none, "", none) rfl

/-- Claim C8.  `resolve_location(tz="+05:30")` yields the fixed offset 19800s
displayed as `"+05:30"`; the `UTC Offset` line of `current_time_result` is
exactly `"UTC Offset: +05:30"` for every calendar request; and
`_format_utc_offset` renders every in-range offset as sign, two digits,
colon, two digits. -/
theorem c8_offset_roundtrip_and_display_shape (env : Env)
    (h : env.validZone "+05:30" = false) :
    (∀ country city, resolve_location env "+05:30" country city =
      .ok (some (.fixed 19800), "+05:30", none)) ∧
    (∀ calendar country city, ∃ p q rl,
      current_time_parts env calendar "+05:30" country city = .ok (p ++ [pyJoin "\n" rl] ++ q) ∧
      "UTC Offset: +05:30" ∈ rl) ∧
    (∀ off : Int, -86400 < off → off < 86400 →
      isOffsetShape (format_offset_str off) = true) := by
  have hres : ∀ country city, resolve_location env "+05:30" country city =
      .ok (some (.fixed 19800), "+05:30", none) := by
    intro country city
    have hp : parse_timezone_param env "+05:30" =
        if env.validZone "+05:30" then .ok (some (.named "+05:30"))
        else .ok (some (.fixed 19800)) := rfl
    unfold resolve_location
    rw [if_pos (show pyStrip "+05:30" ≠ "" by decide), hp, h]
    rfl
  refine ⟨hres, fun calendar country city => ?_, ?_⟩
  · have hline : ("UTC Offset: " ++
        format_utc_offset env (displayDT env (some (Tzinfo.fixed 19800)))) =
        "UTC Offset: +05:30" := rfl
    have hmem : "UTC Offset: +05:30" ∈
        (ctr_state env calendar "+05:30" country city
          (some (Tzinfo.fixed 19800), "+05:30", none)).1 := by
      have hmem_base : "UTC Offset: +05:30" ∈
          (ctr_base env (some (Tzinfo.fixed 19800), "+05:30", none)
            (hasLocation "+05:30" country city)
            (displayDT env (some (Tzinfo.fixed 19800)))).1 := by
        have hab : get_timezone_abbrev env (displayDT env (some (Tzinfo.fixed 19800))) =
            "UTC+05:30" := rfl
        have hl : hasLocation "+05:30" country city = true := rfl
        rw [hl]
        unfold ctr_base
        simp only [if_pos rfl]
        simp [hab, hline]
      unfold ctr_state
      dsimp only
      unfold calendar_pass
      by_cases hc : pyStrip calendar ≠ ""
      · rw [if_pos hc]
        dsimp only
        exact List.mem_append_left _ hmem_base
      · rw [if_neg hc]
        exact hmem_base
    refine ⟨ctrWarnBlock (ctr_state env calendar "+05:30" country city
        (some (Tzinfo.fixed 19800), "+05:30", none)).2.2 (hasLocation "+05:30" country city)
        (some (Tzinfo.fixed 19800)),
      ctrSectionsBlock (ctr_state env calendar "+05:30" country city
        (some (Tzinfo.fixed 19800), "+05:30", none)).2.1 ++
      ctrCalWarnBlock (ctr_state env calendar "+05:30" country city
        (some (Tzinfo.fixed 19800), "+05:30", none)).2.2 ++
      ctrUtcRefBlock (hasLocation "+05:30" country city) (some (Tzinfo.fixed 19800))
        (env.strf (utcDT env) "%Y-%m-%d %H:%M:%S") ++
      ctrNtpBlock (env.ntpOkOf DEFAULT_NTP_SERVER),
      (ctr_state env calendar "+05:30" country city
        (some (Tzinfo.fixed 19800), "+05:30", none)).1,
      ?_, hmem⟩
    unfold current_time_parts
    rw [hres country city]
    dsimp only
    simp [List.append_assoc]
  · intro off hlo hhi
    have hA : off.natAbs < 86400 := by omega
    have hH : off.natAbs / 3600 < 100 := Nat.div_lt_of_lt_mul (by omega)
    have hM : off.natAbs % 3600 / 60 < 100 := Nat.div_lt_of_lt_mul (by
      have := Nat.mod_lt off.natAbs (show 0 < 3600 by norm_num)
      omega)
    obtain ⟨a, b, hab, hda, hdb⟩ := twoDigitsB_shape (twoDigitsB_pad2 _ hH)
    obtain ⟨c, d, hcd, hdc, hdd⟩ := twoDigitsB_shape (twoDigitsB_pad2 _ hM)
    unfold format_offset_str isOffsetShape
    by_cases hsg : off ≥ 0
    · rw [if_pos hsg, strData_append, strData_append, strData_append, hab, hcd]
      simp [hda, hdb, hdc, hdd]
    · rw [if_neg hsg, strData_append, strData_append, strData_append, hab, hcd]
      simp [hda, hdb, hdc, hdd]

theorem c8_witness :
    resolve_location envTest "+05:30" "" "" = .ok (some (.fixed 19800), "+05:30", none) ∧
    isOffsetShape (format_offset_str 19800) = true :=
  ⟨(c8_offset_roundtrip_and_display_shape envTest rfl).1 "" "",
   (c8_offset_roundtrip_and_display_shape envTest rfl).2.2 19800 (by decide) (by decide)⟩

/-- The NTP fallback notice is the textual tail of the joined report whenever
the parts end with the fallback block. -/
theorem pyJoin_ntp_last (A B C D : List String) (j : String) :
    ∃ s, pyJoin "\n" (A ++ [j] ++ B ++ C ++ D ++ ctrNtpBlock false) =
      s ++ "\n" ++ "(Note: NTP unavailable, using local server time)" := by
  have h1 : ctrNtpBlock false = ["(Note: NTP unavailable, using local server time)"] := rfl
  have hfront : A ++ [j] ++ B ++ C ++ D ≠ [] := by
    intro he
    have := congrArg List.length he
    simp at this
  refine ⟨pyJoin "\n" (A ++ [j] ++ B ++ C ++ D), ?_⟩
  rw [h1, pyJoin_append_last _ _ _ hfront]

/-- Claim C4.  `current_time_result`'s parts always appear in the fixed order
warnings-block, header lines (with the Gregorian date line), calendar
sections, unknown-calendar warnings, UTC reference (location success only),
NTP fallback notice; and when the time source reports failure the fallback
notice is the last line of both `get_current_time` and `get_utc` output. -/
theorem c4_fixed_block_order_and_ntp_last (env : Env) (calendar tz country city : String)
    (r : Option Tzinfo × String × Option String)
    (h : resolve_location env tz country city = .ok r) :
    current_time_parts env calendar tz country city =
      .ok (ctrWarnBlock (ctr_state env calendar tz country city r).2.2
             (hasLocation tz country city) r.1
           ++ [pyJoin "\n" (ctr_state env calendar tz country city r).1]
           ++ ctrSectionsBlock (ctr_state env calendar tz country city r).2.1
           ++ ctrCalWarnBlock (ctr_state env calendar tz country city r).2.2
           ++ ctrUtcRefBlock (hasLocation tz country city) r.1
               (env.strf (utcDT env) "%Y-%m-%d %H:%M:%S")
           ++ ctrNtpBlock (env.ntpOkOf DEFAULT_NTP_SERVER)) ∧
    (env.ntpOkOf DEFAULT_NTP_SERVER = false →
      ∃ s, current_time_result env calendar tz country city =
        .ok (s ++ "\n" ++ "(Note: NTP unavailable, using local server time)")) ∧
    (∀ server, env.ntpOkOf server = false →
      ∃ s, utc_time_result env server =
        s ++ "\n" ++ "(Note: NTP unavailable, using local server time)") ∧
    containsSubstr "(Note: NTP unavailable, using local server time)" "\n" = false := by
  have hparts : current_time_parts env calendar tz country city =
      .ok (ctrWarnBlock (ctr_state env calendar tz country city r).2.2
             (hasLocation tz country city) r.1
           ++ [pyJoin "\n" (ctr_state env calendar tz country city r).1]
           ++ ctrSectionsBlock (ctr_state env calendar tz country city r).2.1
           ++ ctrCalWarnBlock (ctr_state env calendar tz country city r).2.2
           ++ ctrUtcRefBlock (hasLocation tz country city) r.1
               (env.strf (utcDT env) "%Y-%m-%d %H:%M:%S")
           ++ ctrNtpBlock (env.ntpOkOf DEFAULT_NTP_SERVER)) := by
    unfold current_time_parts
    rw [h]
  refine ⟨hparts, fun hn => ?_, fun server hs => ?_, by decide⟩
  · obtain ⟨s, hsj⟩ := pyJoin_ntp_last
      (ctrWarnBlock (ctr_state env calendar tz country city r).2.2
        (hasLocation tz country city) r.1)
      (ctrSectionsBlock (ctr_state env calendar tz country city r).2.1)
      (ctrCalWarnBlock (ctr_state env calendar tz country city r).2.2)
      (ctrUtcRefBlock (hasLocation tz country city) r.1
        (env.strf (utcDT env) "%Y-%m-%d %H:%M:%S"))
      (pyJoin "\n" (ctr_state env calendar tz country city r).1)
    refine ⟨s, ?_⟩
    unfold current_time_result
    rw [hparts, hn]
    dsimp only [Except.map]
    rw [hsj]
  · refine ⟨"Current UTC Time from " ++ server ++ ": " ++
      env.strf (get_ntp_datetime env server).1 "%Y-%m-%d %H:%M:%S" ++ "\nDay: " ++
      env.strf (get_ntp_datetime env server).1 "%A", ?_⟩
    unfold utc_time_result
    dsimp only
    rw [show (get_ntp_datetime env server).2 = env.ntpOkOf server from rfl, hs]
    rw [if_neg (show ¬(false = true) by simp)]
    rw [show ("\n(Note: NTP unavailable, using local server time)" : String) =
        "\n" ++ "(Note: NTP unavailable, using local server time)" from by decide]
    rw [← strAppendAssoc]

theorem c4_witness :
    (∃ s, current_time_result envNtpFail "" "" "" "" =
      .ok (s ++ "\n" ++ "(Note: NTP unavailable, using local server time)")) ∧
    (∃ s, utc_time_result envNtpFail "pool.ntp.org" =
      s ++ "\n" ++ "(Note: NTP unavailable, using local server time)") :=
  ⟨(c4_fixed_block_order_and_ntp_last envNtpFail "" "" "" "" (none, "", none) rfl).2.1 rfl,
   (c4_fixed_block_order_and_ntp_last envNtpFail "" "" "" "" (none, "", none) rfl).2.2.1
     "pool.ntp.org" rfl⟩

/-- Claim C10.  A calendar argument that is non-blank overall but all of
whose comma-separated segments are blank still adds the Gregorian date line,
while producing no calendar section and no unknown-calendar warning. -/
theorem c10_blank_calendar_segments (env : Env) (calendar tz country city : String)
    (r : Option Tzinfo × String × Option String)
    (h : resolve_location env tz country city = .ok r)
    (hc : pyStrip calendar ≠ "")
    (hall : ∀ c ∈ pySplitComma calendar, pyStrip c = "") :
    ctr_state env calendar tz country city r =
      ((ctr_base env r (hasLocation tz country city) (displayDT env r.1)).1 ++
        ["Date: " ++ env.strf (displayDT env r.1) "%Y-%m-%d" ++ " (Gregorian)"],
       [],
       (ctr_base env r (hasLocation tz country city) (displayDT env r.1)).2) ∧
    current_time_parts env calendar tz country city =
      .ok (ctrWarnBlock (ctr_base env r (hasLocation tz country city) (displayDT env r.1)).2
             (hasLocation tz country city) r.1
           ++ [pyJoin "\n" ((ctr_base env r (hasLocation tz country city) (displayDT env r.1)).1 ++
                ["Date: " ++ env.strf (displayDT env r.1) "%Y-%m-%d" ++ " (Gregorian)"])]
           ++ ctrCalWarnBlock (ctr_base env r (hasLocation tz country city) (displayDT env r.1)).2
           ++ ctrUtcRefBlock (hasLocation tz country city) r.1
               (env.strf (utcDT env) "%Y-%m-%d %H:%M:%S")
           ++ ctrNtpBlock (env.ntpOkOf DEFAULT_NTP_SERVER)) := by
  have hreq : ∀ c ∈ (pySplitComma calendar).map (fun c => pyLower (pyStrip c)), c = "" := by
    intro c hcmem
    rw [List.mem_map] at hcmem
    obtain ⟨b, hb, rfl⟩ := hcmem
    rw [hall b hb]
    rfl
  have hstate : ctr_state env calendar tz country city r =
      ((ctr_base env r (hasLocation tz country city) (displayDT env r.1)).1 ++
        ["Date: " ++ env.strf (displayDT env r.1) "%Y-%m-%d" ++ " (Gregorian)"],
       [],
       (ctr_base env r (hasLocation tz country city) (displayDT env r.1)).2) := by
    unfold ctr_state calendar_pass
    dsimp only
    rw [if_pos hc, foldl_calFoldStep]
    have h1 : ((pySplitComma calendar).map (fun c => pyLower (pyStrip c))).filterMap
        (fun c => if c = "" then none
          else (calFormatter c).map (fun f => f env (displayDT env r.1))) = [] := by
      rw [List.filterMap_eq_nil_iff]
      intro a ha
      rw [if_pos (hreq a ha)]
    have h2 : ((pySplitComma calendar).map (fun c => pyLower (pyStrip c))).filterMap
        (fun c => if c = "" then none
          else match calFormatter c with
               | some _ => none
               | none => some (unknownCalWarn c)) = [] := by
      rw [List.filterMap_eq_nil_iff]
      intro a ha
      rw [if_pos (hreq a ha)]
    rw [h1, h2]
    simp
  refine ⟨hstate, ?_⟩
  unfold current_time_parts
  rw [h]
  dsimp only
  rw [hstate]
  simp [ctrSectionsBlock]

theorem c10_witness :
    ctr_state envTest "," "" "" "" (none, "", none) =
      ((ctr_base envTest (none, "", none) (hasLocation "" "" "") (displayDT envTest none)).1 ++
        ["Date: " ++ envTest.strf (displayDT envTest none) "%Y-%m-%d" ++ " (Gregorian)"],
       [],
       (ctr_base envTest (none, "", none) (hasLocation "" "" "") (displayDT envTest none)).2) :=
  (c10_blank_calendar_segments envTest "," "" "" "" (none, "", none) rfl (by decide)
    (by decide)).1

/-- Every unknown-calendar warning line contains `"Unknown calendar"`, so the
trailing-block filter of `current_time_result` keeps all of them. -/
theorem unknownCalWarn_contains (c : String) :
    containsSubstr (unknownCalWarn c) "Unknown calendar" = true := by
  have h1 : subList "Unknown calendar".data "(Note: Unknown calendar format ignored: ".data = true := by
    decide
  have h2 := subList_append_left _ _ (c.data ++ ")".data) h1
  unfold containsSubstr
  have hd : (unknownCalWarn c).data =
      "(Note: Unknown calendar format ignored: ".data ++ (c.data ++ ")".data) := by
    unfold unknownCalWarn
    rw [strData_append, strData_append, List.append_assoc]
  rw [hd]
  exact h2

/-- Claim C5 (amended).  The calendar names are split on commas, stripped and
lowercased; the sections list holds exactly one section per known name and
the loop warnings exactly one line per unknown name, both in caller order
with repeats kept, and an unknown name never aborts the call.  The trailing
unknown-calendar block holds exactly those lines -- plus, when location
resolution failed, the top warnings block repeats them (the duplication shown
by the counterexample); when location resolution did not fail there are no
location warnings and each unknown-name warning line appears once. -/
theorem c5_calendar_sections_and_warnings (env : Env) (calendar tz country city : String)
    (r : Option Tzinfo × String × Option String)
    (h : resolve_location env tz country city = .ok r) :
    (ctr_state env calendar tz country city r).2.1 =
      (calRequested calendar).filterMap (fun c =>
        if c = "" then none else (calFormatter c).map (fun f => f env (displayDT env r.1))) ∧
    (ctr_state env calendar tz country city r).2.2 =
      (ctr_base env r (hasLocation tz country city) (displayDT env r.1)).2 ++
      (calRequested calendar).filterMap (fun c =>
        if c = "" then none else
          match calFormatter c with
          | some _ => none
          | none => some (unknownCalWarn c)) ∧
    (ctr_state env calendar tz country city r).2.2.filter
        (fun w => containsSubstr w "Unknown calendar") =
      (ctr_base env r (hasLocation tz country city) (displayDT env r.1)).2.filter
        (fun w => containsSubstr w "Unknown calendar") ++
      (calRequested calendar).filterMap (fun c =>
        if c = "" then none else
          match calFormatter c with
          | some _ => none
          | none => some (unknownCalWarn c)) ∧
    ((r.1 ≠ none ∨ hasLocation tz country city = false) →
      (ctr_base env r (hasLocation tz country city) (displayDT env r.1)).2 = []) ∧
    current_time_parts env calendar tz country city =
      .ok (ctrWarnBlock (ctr_state env calendar tz country city r).2.2
             (hasLocation tz country city) r.1
           ++ [pyJoin "\n" (ctr_state env calendar tz country city r).1]
           ++ ctrSectionsBlock (ctr_state env calendar tz country city r).2.1
           ++ ctrCalWarnBlock (ctr_state env calendar tz country city r).2.2
           ++ ctrUtcRefBlock (hasLocation tz country city) r.1
               (env.strf (utcDT env) "%Y-%m-%d %H:%M:%S")
           ++ ctrNtpBlock (env.ntpOkOf DEFAULT_NTP_SERVER)) := by
  have hpair : (ctr_state env calendar tz country city r).2 =
      ((calRequested calendar).filterMap (fun c =>
        if c = "" then none else (calFormatter c).map (fun f => f env (displayDT env r.1))),
       (ctr_base env r (hasLocation tz country city) (displayDT env r.1)).2 ++
       (calRequested calendar).filterMap (fun c =>
        if c = "" then none else
          match calFormatter c with
          | some _ => none
          | none => some (unknownCalWarn c))) := by
    unfold ctr_state calendar_pass calRequested
    dsimp only
    by_cases hc : pyStrip calendar ≠ ""
    · rw [if_pos hc, if_pos hc, foldl_calFoldStep]
      simp
    · rw [if_neg hc, if_neg hc]
      simp
  have h1 := congrArg Prod.fst hpair
  have h2 := congrArg Prod.snd hpair
  dsimp only at h1 h2
  refine ⟨h1, h2, ?_, ?_, ?_⟩
  · rw [h2, List.filter_append]
    congr 1
    rw [List.filter_eq_self]
    intro w hw
    rw [List.mem_filterMap] at hw
    obtain ⟨b, _, hfb⟩ := hw
    by_cases hb : b = ""
    · rw [if_pos hb] at hfb
      cases hfb
    · rw [if_neg hb] at hfb
      cases hcf : calFormatter b with
      | some f =>
          rw [hcf] at hfb
          cases hfb
      | none =>
          rw [hcf] at hfb
          injection hfb with hfb'
          rw [← hfb']
          exact unknownCalWarn_contains b
  · intro hcase
    rcases hcase with hsome | hfalse
    · obtain ⟨t, ht⟩ := Option.ne_none_iff_exists'.mp hsome
      unfold ctr_base
      rw [ht]
      cases hlv : hasLocation tz country city
      · rfl
      · rfl
    · unfold ctr_base
      rw [hfalse]
      rfl
  · unfold current_time_parts
    rw [h]

theorem c5_witness :
    (ctr_state envTest "unix,invalid,hebrew" "" "" "" (none, "", none)).2.1 =
      (calRequested "unix,invalid,hebrew").filterMap (fun c =>
        if c = "" then none
        else (calFormatter c).map (fun f => f envTest (displayDT envTest none))) :=
  (c5_calendar_sections_and_warnings envTest "unix,invalid,hebrew" "" "" ""
    (none, "", none) rfl).1

/-- Counterexample to claim C5 as stated: the claim says the output contains
exactly one warning line per unknown calendar name, but when location
resolution also fails the top warnings block joins the whole warnings list --
unknown-calendar lines included -- and the trailing block repeats them, so
`get_current_time(calendar="bogus", timezone="zzz")` prints the warning
`(Note: Unknown calendar format ignored: bogus)` twice. -/
theorem c5_counterexample :
    (current_time_result envTest "bogus" "zzz" "" "").map
      (fun out => ((linesOf out).filter (fun l => l == unknownCalWarn "bogus")).length) =
    Except.ok 2 := by
  rfl
